import Mathlib

/-!
Verification of the NeedMoMatchaBot monitoring core (`bot.py`).

The definitions below are a shallow embedding of the Python source:
* the per-product diff/notify/throttle logic of `monitor_products`
  (lines 706-768) becomes `stepEntry` acting on a per-product `Entry`;
* the per-user snapshot dictionary becomes `Snap : String → Entry`
  (the Python dict keys `pid` and `pid ++ "_error_time"` are the
  `stockV` and `errV` fields of the entry at `pid`);
* the lifecycle gate `should_send_notification` and the dev-mode
  branches of `notify_maintenance_start` are embedded verbatim;
* `get_user_stock_status`'s legacy upgrade, `add_user`, and the
  unique-product collection of the scheduler are embedded directly.
Notification dispatch is modelled by counters: `notif`/`errNotif`
count calls to `send_notification`/`notify_product_error` (dispatch
attempts), `delivered`/`errDelivered` count the sends that pass the
dev-mode filter inside those functions.
-/

namespace NeedMoMatcha

/-- Pointwise update of a function map, modelling a Python dict write. -/
def fupdate {α β : Type} [DecidableEq α] (f : α → β) (a : α) (b : β) : α → β :=
  fun x => if x = a then b else f x

/-- `listContainsSub needle hay` is Python's `needle in hay` on char lists. -/
def listContainsSub (needle : List Char) : List Char → Bool
  | [] => needle.isEmpty
  | c :: rest => needle.isPrefixOf (c :: rest) || listContainsSub needle rest

/-- Python's substring test `needle in hay` for strings. -/
def strContains (hay needle : String) : Bool :=
  listContainsSub needle.toList hay.toList

/-- Python's `s.lower()`, as a character list. -/
def lowerList (s : String) : List Char := s.toList.map Char.toLower

/-- Python's `needle in hay.lower()`. -/
def strContainsLower (hay needle : String) : Bool :=
  listContainsSub needle.toList (lowerList hay)

/-- The persistent-error test of `monitor_products` line 760:
`"not found" in message.lower() or "404" in message or "removed" in message.lower()`. -/
def isPersistentError (message : String) : Bool :=
  strContainsLower message "not found" || strContains message "404" ||
    strContainsLower message "removed"

/-- Error message for HTTP 404 (`check_product_stock` line 167). -/
def msg404 : String :=
  "Product page not found (404) - Product may have been removed or URL changed"

/-- Error message for HTTP 403 (line 169). -/
def msg403 : String := "Access denied (403) - Website may be blocking requests"

/-- Error message for HTTP 500 (line 171). -/
def msg500 : String := "Server error (500) - Website may be experiencing issues"

/-- Error message when the page title indicates an error (line 184). -/
def msgTitleError : String := "Product page not found - Page title indicates error"

/-- Classification message for unknown status text (line 209). -/
def msgUnknownStatus (statusText : String) : String :=
  "Unknown status (" ++ statusText ++ ")"

/-- Classification message when the stock status span is missing (line 211). -/
def msgNoSpan : String := "No stock status span found"

/-- Classification message when the add button container is missing (line 213). -/
def msgNoContainer : String := "No add button container found"

/-- Transient error message for connection failures (line 216). -/
def msgConnectionError : String := "Connection error - Cannot reach the website"

/-- Transient error message for timeouts (line 218). -/
def msgTimeout : String := "Timeout error - Website took too long to respond"

/-- A persisted stock record: the dict `{'in_stock': ..., 'message': ...}`. -/
structure StockRecord where
  in_stock : Bool
  message : String
deriving DecidableEq

/-- A value stored under a product key: either the structured dict or the
legacy bare boolean (cf. the `isinstance(previous_status, dict)` branch). -/
inductive StockVal where
  | legacy (b : Bool)
  | dict (r : StockRecord)
deriving DecidableEq

/-- The diff decision of `monitor_products` lines 716-738:
`status_changed or message_changed` for the given previous value and the
newly probed `(is_in_stock, message)` pair. -/
def decideNotify (previous : Option StockVal) (is_in_stock : Bool)
    (message : String) : Bool :=
  match previous with
  | some (.dict prev) =>
      (prev.in_stock != is_in_stock) || (prev.message != message)
  | some (.legacy b) => (b != is_in_stock) || true
  | none => true || true

/-- The dev-mode dispatch filter of `send_notification` line 227 /
`notify_product_error` line 419: the message is actually sent unless
dev mode is on and the recipient is not the dev user. -/
def sendFilter (dev_mode : Bool) (dev_user_id chat_id : String) : Bool :=
  !(dev_mode && chat_id != dev_user_id)

/-- Per-product per-user cycle state: `stockV` is the snapshot dict entry at
the product key, `errV` the entry at the `_error_time` key, and the four
counters record dispatch attempts and filtered deliveries. -/
@[ext]
structure Entry where
  stockV : Option StockVal := none
  errV : Option Int := none
  notif : Nat := 0
  delivered : Nat := 0
  errNotif : Nat := 0
  errDelivered : Nat := 0
deriving DecidableEq

/-- One product's processing inside `monitor_products` lines 706-768 for one
user, given the probe result `res = checked_products.get(pid)` (with `none`
for `continue` at line 707) and the current time `now`. -/
def stepEntry (dev_mode : Bool) (dev_user_id chat_id : String) (now : Int)
    (res : Option (Option Bool × String)) (e : Entry) : Entry :=
  match res with
  | none => e
  | some (some is_in_stock, message) =>
      let worthy := decideNotify e.stockV is_in_stock message
      let e' :=
        if worthy then
          { e with
            notif := e.notif + 1
            delivered :=
              if sendFilter dev_mode dev_user_id chat_id then e.delivered + 1
              else e.delivered }
        else e
      { e' with stockV := some (.dict ⟨is_in_stock, message⟩) }
  | some (none, message) =>
      if isPersistentError message then
        let last_error_time := (e.errV).getD 0
        if now - last_error_time > 86400 then
          { e with
            errNotif := e.errNotif + 1
            errDelivered :=
              if sendFilter dev_mode dev_user_id chat_id then e.errDelivered + 1
              else e.errDelivered
            errV := some now }
        else e
      else e

/-- A user's in-cycle snapshot state, keyed by product id. -/
def Snap : Type := String → Entry

/-- Process one monitored product id for one user (the body of the inner
loop at lines 706-768), reading and writing only the entry at `pid`. -/
def processProduct (dev_mode : Bool) (dev_user_id chat_id : String) (now : Int)
    (checked : String → Option (Option Bool × String)) (s : Snap)
    (pid : String) : Snap :=
  fupdate s pid (stepEntry dev_mode dev_user_id chat_id now (checked pid) (s pid))

/-- Process a user's whole monitored-product list (lines 706-768). -/
def processUserProducts (dev_mode : Bool) (dev_user_id chat_id : String)
    (now : Int) (checked : String → Option (Option Bool × String)) (s : Snap)
    (monitored : List String) : Snap :=
  monitored.foldl (processProduct dev_mode dev_user_id chat_id now checked) s

/-- The per-user fan-out of a cycle (lines 699-771): each user's snapshot in
the store is replaced by the result of processing their monitored list. -/
def processUsers (dev_mode : Bool) (dev_user_id : String) (now : Int)
    (checked : String → Option (Option Bool × String)) (store : String → Snap)
    (users : List (String × List String)) : String → Snap :=
  users.foldl
    (fun st u =>
      fupdate st u.1
        (processUserProducts dev_mode dev_user_id u.1 now checked (st u.1) u.2))
    store

/-- `should_send_notification` (lines 124-154): returns whether to send and
the updated `user_bot_states` map. -/
def shouldSendNotification (notification_type chat_id : String)
    (states : String → Option String) : Bool × (String → Option String) :=
  if notification_type == "maintenance_start" ||
      notification_type == "dev_mode_enabled" then
    let current_state := (states chat_id).getD "resumed"
    if current_state == "maintenance" then (false, states)
    else (true, fupdate states chat_id (some "maintenance"))
  else if notification_type == "maintenance_end" then
    let current_state := (states chat_id).getD "resumed"
    if current_state == "resumed" then (false, states)
    else (true, fupdate states chat_id (some "resumed"))
  else if notification_type == "unexpected_shutdown" then (true, states)
  else (true, states)

/-- One iteration of the production loop of `notify_maintenance_start`
(lines 305-317): gate the notice through the state machine and record the
recipient when it is sent. -/
def maintenanceStartStep (acc : (String → Option String) × List String)
    (chat_id : String) : (String → Option String) × List String :=
  let r := shouldSendNotification "maintenance_start" chat_id acc.1
  (r.2, if r.1 then acc.2 ++ [chat_id] else acc.2)

/-- `notify_maintenance_start` (lines 279-317): in dev mode only the dev user
goes through the lifecycle gate; in production every user does.  Returns the
updated state map and the list of recipients a notice was sent to. -/
def notifyMaintenanceStart (dev_mode : Bool) (dev_user_id : String)
    (users : List String) (states : String → Option String) :
    (String → Option String) × List String :=
  if dev_mode then
    let r := shouldSendNotification "maintenance_start" dev_user_id states
    (r.2, if r.1 then [dev_user_id] else [])
  else
    users.foldl maintenanceStartStep (states, [])

/-- A raw value in a persisted stock-status file: a legacy bare boolean, the
structured dict, or a numeric `_error_time` entry. -/
inductive RawVal where
  | rawBool (b : Bool)
  | rawDict (r : StockRecord)
  | rawNum (t : Int)
deriving DecidableEq

/-- The legacy upgrade inside `get_user_stock_status` (lines 69-74):
a bare boolean becomes `{'in_stock': b, 'message': 'Legacy status'}`. -/
def upgradeVal : RawVal → RawVal
  | .rawBool b => .rawDict ⟨b, "Legacy status"⟩
  | v => v

/-- `get_user_stock_status` (lines 62-77): a missing file yields the empty
mapping; otherwise every legacy boolean entry is upgraded on read. -/
def get_user_stock_status (file : Option (List (String × RawVal))) :
    List (String × RawVal) :=
  match file with
  | none => []
  | some data => data.map (fun kv => (kv.1, upgradeVal kv.2))

/-- A user record as written by `add_user` (lines 103-109). -/
structure UserData where
  chat_id : String
  name : String
  monitored_products : List String
  created_at : String
  last_active : String
deriving DecidableEq

/-- The bot's user storage: the in-memory `self.users` dict and the
per-user files under `users/`. -/
structure BotUsers where
  users : String → Option UserData
  disk : String → Option UserData

/-- `save_user` (lines 55-60): writes the file and the in-memory dict. -/
def save_user (st : BotUsers) (chat_id : String) (d : UserData) : BotUsers :=
  { st with
    disk := fupdate st.disk chat_id (some d)
    users := fupdate st.users chat_id (some d) }

/-- `add_user` (lines 100-113): creates a record with the default monitored
list for an unknown chat id, otherwise does nothing and returns `false`. -/
def add_user (st : BotUsers) (chat_id name now : String) : Bool × BotUsers :=
  match st.users chat_id with
  | none =>
      let user_data : UserData :=
        { chat_id := chat_id, name := name
          monitored_products := ["ikuyo_100g"]
          created_at := now, last_active := now }
      (true, save_user st chat_id user_data)
  | some _ => (false, st)

/-- The unique-product collection of the scheduler (lines 677-679):
`all_products_to_check.update(user_data.get('monitored_products', []))`. -/
def allProductsToCheck (monitoredLists : List (List String)) : Finset String :=
  monitoredLists.foldl (fun acc l => acc ∪ l.toFinset) ∅

/-- The number of `check_product_stock` invocations in a cycle (lines
689-694): one per element of the unique set that is in the catalog. -/
def probeCalls (catalog : Finset String) (monitoredLists : List (List String)) :
    Nat :=
  ((allProductsToCheck monitoredLists).filter (· ∈ catalog)).card

/-! ## Theorems -/

/-- Applying the valid-result step when the stored record already equals the
probed pair changes nothing. -/
theorem stepEntry_stable (dm : Bool) (du cid : String) (now : Int) (b : Bool)
    (msg : String) (e : Entry) (h : e.stockV = some (.dict ⟨b, msg⟩)) :
    stepEntry dm du cid now (some (some b, msg)) e = e := by
  have hw : decideNotify e.stockV b msg = false := by
    rw [h]; simp [decideNotify]
  simp only [stepEntry, hw, Bool.false_eq_true, if_false]
  rw [← h]

/-- C1: for a successfully classified probe result, the diff decision is
notification-worthy iff there is no prior record or the prior availability or
detail differs; the new pair is always written; on a non-worthy outcome the
dispatch is suppressed, on a worthy outcome it is attempted. -/
theorem diff_decision_spec (prev : Option StockRecord) (dm : Bool)
    (du cid : String) (now : Int) (b : Bool) (msg : String) (e : Entry)
    (h : e.stockV = prev.map StockVal.dict) :
    (decideNotify e.stockV b msg = true ↔
      prev = none ∨ ∃ r, prev = some r ∧ (r.in_stock ≠ b ∨ r.message ≠ msg)) ∧
    (stepEntry dm du cid now (some (some b, msg)) e).stockV =
      some (.dict ⟨b, msg⟩) ∧
    (decideNotify e.stockV b msg = false →
      (stepEntry dm du cid now (some (some b, msg)) e).notif = e.notif ∧
      (stepEntry dm du cid now (some (some b, msg)) e).delivered =
        e.delivered) ∧
    (decideNotify e.stockV b msg = true →
      (stepEntry dm du cid now (some (some b, msg)) e).notif = e.notif + 1) := by
  refine ⟨?_, rfl, ?_, ?_⟩
  · rw [h]; cases prev with
    | none => simp [decideNotify]
    | some r => simp [decideNotify, Option.map_some']
  · intro hw; simp [stepEntry, hw]
  · intro hw; simp [stepEntry, hw]

/-- Witness for `diff_decision_spec` at a concrete record and probe pair. -/
theorem diff_decision_spec_witness :
    ({ stockV := some (.dict ⟨true, "x"⟩) } : Entry).stockV =
      (some (⟨true, "x"⟩ : StockRecord)).map StockVal.dict ∧
    (stepEntry false "d" "c" 0 (some (some false, "y"))
      ({ stockV := some (.dict ⟨true, "x"⟩) } : Entry)).stockV =
      some (.dict ⟨false, "y"⟩) :=
  ⟨rfl,
    (diff_decision_spec (some ⟨true, "x"⟩) false "d" "c" 0 false "y"
      { stockV := some (.dict ⟨true, "x"⟩) } rfl).2.1⟩

/-- C5: the diff decision is deterministic, and applying the record update
then re-deciding against the updated record with the same probe result is
non-worthy and the second application of the update is a no-op. -/
theorem diff_idempotent (prev : Option StockVal) (dm : Bool) (du cid : String)
    (now : Int) (b : Bool) (msg : String) (e : Entry) :
    decideNotify prev b msg = decideNotify prev b msg ∧
    decideNotify (stepEntry dm du cid now (some (some b, msg)) e).stockV b msg
      = false ∧
    stepEntry dm du cid now (some (some b, msg))
        (stepEntry dm du cid now (some (some b, msg)) e) =
      stepEntry dm du cid now (some (some b, msg)) e := by
  refine ⟨rfl, ?_, ?_⟩
  · have hs : (stepEntry dm du cid now (some (some b, msg)) e).stockV =
      some (.dict ⟨b, msg⟩) := rfl
    rw [hs]; simp [decideNotify]
  · exact stepEntry_stable dm du cid now b msg _ rfl

/-- C3: the lifecycle gate implements the specified state machine:
`maintenance_start`/`dev_mode_enabled` notify and move to `maintenance` only
from the (possibly default) `resumed` state and are idempotent; a
`maintenance_end` notifies and moves to `resumed` only from `maintenance`;
`unexpected_shutdown` always notifies and never changes the state; two
consecutive `maintenance_start` events yield exactly one notice and a
`maintenance_end` with no preceding `maintenance_start` yields none. -/
theorem lifecycle_spec :
    (∀ (states : String → Option String) (cid : String),
      (states cid = none ∨ states cid = some "resumed") →
        shouldSendNotification "maintenance_start" cid states =
          (true, fupdate states cid (some "maintenance")) ∧
        shouldSendNotification "dev_mode_enabled" cid states =
          (true, fupdate states cid (some "maintenance"))) ∧
    (∀ (states : String → Option String) (cid : String),
      states cid = some "maintenance" →
        shouldSendNotification "maintenance_start" cid states =
          (false, states) ∧
        shouldSendNotification "dev_mode_enabled" cid states =
          (false, states)) ∧
    (∀ (states : String → Option String) (cid : String),
      states cid = some "maintenance" →
        shouldSendNotification "maintenance_end" cid states =
          (true, fupdate states cid (some "resumed"))) ∧
    (∀ (states : String → Option String) (cid : String),
      (states cid = none ∨ states cid = some "resumed") →
        shouldSendNotification "maintenance_end" cid states = (false, states)) ∧
    (∀ (states : String → Option String) (cid : String),
      shouldSendNotification "unexpected_shutdown" cid states =
        (true, states)) ∧
    (∀ (states : String → Option String) (cid : String),
      (states cid = none ∨ states cid = some "resumed") →
        (shouldSendNotification "maintenance_start" cid states).1 = true ∧
        (shouldSendNotification "maintenance_start" cid
          (shouldSendNotification "maintenance_start" cid states).2).1 =
          false) ∧
    (∀ (states : String → Option String) (cid : String),
      states cid = none →
        (shouldSendNotification "maintenance_end" cid states).1 = false) := by
  refine ⟨?_, ?_, ?_, ?_, ?_, ?_, ?_⟩
  · intro states cid h
    rcases h with h | h <;> constructor <;>
      simp [shouldSendNotification, h]
  · intro states cid h
    constructor <;> simp [shouldSendNotification, h]
  · intro states cid h
    simp [shouldSendNotification, h]
  · intro states cid h
    rcases h with h | h <;> simp [shouldSendNotification, h]
  · intro states cid
    simp [shouldSendNotification]
  · intro states cid h
    rcases h with h | h <;>
      refine ⟨by simp [shouldSendNotification, h], ?_⟩ <;>
      simp [shouldSendNotification, h, fupdate]
  · intro states cid h
    simp [shouldSendNotification, h]

/-- Witness for `lifecycle_spec`: a fresh user's first `maintenance_start`
sends a notice and moves them to `maintenance`. -/
theorem lifecycle_spec_witness :
    ((fun _ => none : String → Option String) "u" = none ∨
      (fun _ => none : String → Option String) "u" = some "resumed") ∧
    shouldSendNotification "maintenance_start" "u" (fun _ => none) =
      (true, fupdate (fun _ => none) "u" (some "maintenance")) :=
  ⟨Or.inl rfl, (lifecycle_spec.1 (fun _ => none) "u" (Or.inl rfl)).1⟩

/-- C10: registering an already-known chat id returns `false` and leaves the
whole user store (memory and disk) unchanged; a new chat id returns `true`
and creates the default record, touching no other user. -/
theorem add_user_spec :
    (∀ (st : BotUsers) (cid name now : String) (d : UserData),
      st.users cid = some d → add_user st cid name now = (false, st)) ∧
    (∀ (st : BotUsers) (cid name now : String),
      st.users cid = none →
        (add_user st cid name now).1 = true ∧
        (add_user st cid name now).2.users cid =
          some ⟨cid, name, ["ikuyo_100g"], now, now⟩ ∧
        (add_user st cid name now).2.disk cid =
          some ⟨cid, name, ["ikuyo_100g"], now, now⟩ ∧
        ∀ other, other ≠ cid →
          (add_user st cid name now).2.users other = st.users other ∧
          (add_user st cid name now).2.disk other = st.disk other) := by
  constructor
  · intro st cid name now d h
    simp [add_user, h]
  · intro st cid name now h
    refine ⟨?_, ?_, ?_, ?_⟩
    · simp [add_user, h]
    · simp [add_user, h, save_user, fupdate]
    · simp [add_user, h, save_user, fupdate]
    · intro other hne
      constructor <;> simp [add_user, h, save_user, fupdate, hne]

/-- Witness for `add_user_spec`: re-registering an existing user is a no-op
returning `false`. -/
theorem add_user_spec_witness :
    (BotUsers.mk
        (fun c => if c = "1" then some ⟨"1", "n", ["ikuyo_100g"], "t", "t"⟩
          else none)
        (fun _ => none)).users "1" =
      some ⟨"1", "n", ["ikuyo_100g"], "t", "t"⟩ ∧
    add_user
        (BotUsers.mk
          (fun c => if c = "1" then some ⟨"1", "n", ["ikuyo_100g"], "t", "t"⟩
            else none)
          (fun _ => none)) "1" "m" "t2" =
      (false,
        BotUsers.mk
          (fun c => if c = "1" then some ⟨"1", "n", ["ikuyo_100g"], "t", "t"⟩
            else none)
          (fun _ => none)) :=
  ⟨rfl,
    add_user_spec.1
      (BotUsers.mk
        (fun c => if c = "1" then some ⟨"1", "n", ["ikuyo_100g"], "t", "t"⟩
          else none)
        (fun _ => none)) "1" "m" "t2" ⟨"1", "n", ["ikuyo_100g"], "t", "t"⟩
      rfl⟩

/-- C7 counterexample: the upgraded detail text is not the literal
`"legacy"` claimed by the spec — the code writes `"Legacy status"`. -/
theorem legacy_upgrade_counterexample :
    get_user_stock_status (some [("p", .rawBool true)]) ≠
      [("p", .rawDict ⟨true, "legacy"⟩)] := by decide

/-- C7 amended: a missing file reads as the empty mapping; every legacy
bare-boolean record is upgraded to `{in_stock := b, message := "Legacy
status"}`; no bare boolean survives the read; structured records and numeric
throttle entries pass through unchanged. -/
theorem legacy_upgrade_spec_amended :
    get_user_stock_status none = [] ∧
    (∀ (data : List (String × RawVal)) (k : String) (b : Bool),
      (k, RawVal.rawBool b) ∈ data →
        (k, RawVal.rawDict ⟨b, "Legacy status"⟩) ∈
          get_user_stock_status (some data)) ∧
    (∀ (data : List (String × RawVal)) (k : String) (b : Bool),
      (k, RawVal.rawBool b) ∉ get_user_stock_status (some data)) ∧
    (∀ (data : List (String × RawVal)) (k : String) (r : StockRecord),
      (k, RawVal.rawDict r) ∈ data →
        (k, RawVal.rawDict r) ∈ get_user_stock_status (some data)) ∧
    (∀ (data : List (String × RawVal)) (k : String) (t : Int),
      (k, RawVal.rawNum t) ∈ data →
        (k, RawVal.rawNum t) ∈ get_user_stock_status (some data)) := by
  refine ⟨rfl, ?_, ?_, ?_, ?_⟩
  · intro data k b h
    exact List.mem_map.mpr ⟨(k, .rawBool b), h, rfl⟩
  · intro data k b h
    rcases List.mem_map.mp h with ⟨⟨k', v'⟩, _, heq⟩
    cases v' <;> simp [upgradeVal] at heq
  · intro data k r h
    exact List.mem_map.mpr ⟨(k, .rawDict r), h, rfl⟩
  · intro data k t h
    exact List.mem_map.mpr ⟨(k, .rawNum t), h, rfl⟩

/-- Witness for `legacy_upgrade_spec_amended`: a concrete legacy boolean is
upgraded in place. -/
theorem legacy_upgrade_spec_amended_witness :
    ("p", RawVal.rawBool true) ∈ [("p", RawVal.rawBool true)] ∧
    ("p", RawVal.rawDict ⟨true, "Legacy status"⟩) ∈
      get_user_stock_status (some [("p", RawVal.rawBool true)]) :=
  ⟨List.mem_singleton.mpr rfl,
    legacy_upgrade_spec_amended.2.1 [("p", RawVal.rawBool true)] "p" true
      (List.mem_singleton.mpr rfl)⟩

/-- C2 counterexample: at exactly 86400 elapsed seconds (the claimed "at
least 24 hours" mark) the code dispatches no error notice and leaves the
throttle timestamp unchanged, because the test is strict `>`. -/
theorem throttle_boundary_counterexample :
    isPersistentError msg404 = true ∧
    (87400 : Int) - 1000 ≥ 86400 ∧
    stepEntry false "d" "c" 87400 (some (none, msg404))
        { errV := some 1000 } =
      { errV := some 1000 } := by decide

/-- The error branch when the throttle window has passed: notice dispatched
and timestamp stored. -/
theorem stepEntry_err_dispatch (dm : Bool) (du cid msg : String) (now : Int)
    (e : Entry) (hp : isPersistentError msg = true)
    (h : now - (e.errV).getD 0 > 86400) :
    stepEntry dm du cid now (some (none, msg)) e =
      { e with
        errNotif := e.errNotif + 1
        errDelivered :=
          if sendFilter dm du cid then e.errDelivered + 1 else e.errDelivered
        errV := some now } := by
  simp [stepEntry, hp, h]

/-- The error branch inside the throttle window: nothing happens. -/
theorem stepEntry_err_silent (dm : Bool) (du cid msg : String) (now : Int)
    (e : Entry) (hp : isPersistentError msg = true)
    (h : ¬(now - (e.errV).getD 0 > 86400)) :
    stepEntry dm du cid now (some (none, msg)) e = e := by
  simp [stepEntry, hp, h]

/-- C2 amended: a persistent-class error dispatches an error notice exactly
when strictly more than 86400 seconds have elapsed since the stored
last-error timestamp (default 0); a dispatched notice stores the current
time; a second error at most 24h later is silent and leaves the state
unchanged, and one strictly later than 24h dispatches again. -/
theorem throttle_spec_amended (dm : Bool) (du cid msg : String) (now : Int)
    (e : Entry) (hp : isPersistentError msg = true) :
    (now - (e.errV).getD 0 > 86400 →
      (stepEntry dm du cid now (some (none, msg)) e).errNotif =
        e.errNotif + 1 ∧
      (stepEntry dm du cid now (some (none, msg)) e).errV = some now) ∧
    (¬(now - (e.errV).getD 0 > 86400) →
      stepEntry dm du cid now (some (none, msg)) e = e) ∧
    (∀ t₂ : Int, now - (e.errV).getD 0 > 86400 → t₂ - now ≤ 86400 →
      stepEntry dm du cid t₂ (some (none, msg))
          (stepEntry dm du cid now (some (none, msg)) e) =
        stepEntry dm du cid now (some (none, msg)) e) ∧
    (∀ t₂ : Int, now - (e.errV).getD 0 > 86400 → t₂ - now > 86400 →
      (stepEntry dm du cid t₂ (some (none, msg))
          (stepEntry dm du cid now (some (none, msg)) e)).errNotif =
        e.errNotif + 2) := by
  refine ⟨?_, ?_, ?_, ?_⟩
  · intro h
    rw [stepEntry_err_dispatch dm du cid msg now e hp h]
    exact ⟨rfl, rfl⟩
  · intro h
    exact stepEntry_err_silent dm du cid msg now e hp h
  · intro t₂ h₁ h₂
    rw [stepEntry_err_dispatch dm du cid msg now e hp h₁]
    apply stepEntry_err_silent _ _ _ _ _ _ hp
    simp only [Option.getD_some]
    omega
  · intro t₂ h₁ h₂
    rw [stepEntry_err_dispatch dm du cid msg now e hp h₁,
      stepEntry_err_dispatch dm du cid msg t₂ _ hp
        (by simp only [Option.getD_some]; omega)]

/-- Witness for `throttle_spec_amended`: the first 404 error at a large
current time dispatches and stores the timestamp. -/
theorem throttle_spec_amended_witness :
    isPersistentError msg404 = true ∧
    ((200000 : Int) - (((none : Option Int)).getD 0) > 86400 →
      (stepEntry false "d" "c" 200000 (some (none, msg404))
        { errV := none }).errNotif = ({ errV := none } : Entry).errNotif + 1 ∧
      (stepEntry false "d" "c" 200000 (some (none, msg404))
        { errV := none }).errV = some 200000) :=
  ⟨by decide,
    (throttle_spec_amended false "d" "c" msg404 200000 { errV := none }
      (by decide)).1⟩

/-- Membership in the de-duplicated probe set: a product is collected iff
some user's monitored list contains it. -/
theorem mem_allProductsToCheck (mls : List (List String)) (p : String) :
    p ∈ allProductsToCheck mls ↔ ∃ l ∈ mls, p ∈ l := by
  have key : ∀ (ms : List (List String)) (acc : Finset String),
      p ∈ ms.foldl (fun acc l => acc ∪ l.toFinset) acc ↔
        p ∈ acc ∨ ∃ l ∈ ms, p ∈ l := by
    intro ms
    induction ms with
    | nil => simp
    | cons l₀ rest ih =>
        intro acc
        simp only [List.foldl_cons, ih, Finset.mem_union, List.mem_toFinset,
          List.mem_cons]
        constructor
        · rintro ((h | h) | ⟨l, hl, hp⟩)
          · exact Or.inl h
          · exact Or.inr ⟨l₀, Or.inl rfl, h⟩
          · exact Or.inr ⟨l, Or.inr hl, hp⟩
        · rintro (h | ⟨l, (rfl | hl), hp⟩)
          · exact Or.inl (Or.inl h)
          · exact Or.inl (Or.inr hp)
          · exact Or.inr ⟨l, hl, hp⟩
  simpa [allProductsToCheck] using key mls ∅

/-- C4: a cycle never probes more than the number of unique monitored ids;
when every monitored id is in the catalog, it probes exactly one per unique
id; and a further user monitoring an already-collected list does not enlarge
the probe set. -/
theorem unique_probe_bound (catalog : Finset String)
    (mls : List (List String)) :
    probeCalls catalog mls ≤ (allProductsToCheck mls).card ∧
    ((∀ l ∈ mls, ∀ p ∈ l, p ∈ catalog) →
      probeCalls catalog mls = (allProductsToCheck mls).card) ∧
    (∀ l ∈ mls, allProductsToCheck (l :: mls) = allProductsToCheck mls) := by
  refine ⟨Finset.card_filter_le _ _, ?_, ?_⟩
  · intro h
    unfold probeCalls
    congr 1
    rw [Finset.filter_eq_self]
    intro p hp
    rcases (mem_allProductsToCheck mls p).mp hp with ⟨l, hl, hpl⟩
    exact h l hl p hpl
  · intro l hl
    ext p
    simp only [mem_allProductsToCheck, List.mem_cons]
    constructor
    · rintro ⟨l', (rfl | hl'), hp⟩
      · exact ⟨l', hl, hp⟩
      · exact ⟨l', hl', hp⟩
    · rintro ⟨l', hl', hp⟩
      exact ⟨l', Or.inr hl', hp⟩

/-- Witness for `unique_probe_bound`: two users overlapping on one product
yield three unique ids and exactly three probe calls. -/
theorem unique_probe_bound_witness :
    (∀ l ∈ [["ikuyo_100g", "sayaka_40g"], ["sayaka_40g", "ummon_20g"]],
      ∀ p ∈ l, p ∈ ({"ikuyo_100g", "sayaka_40g", "ummon_20g"} :
        Finset String)) ∧
    probeCalls {"ikuyo_100g", "sayaka_40g", "ummon_20g"}
        [["ikuyo_100g", "sayaka_40g"], ["sayaka_40g", "ummon_20g"]] =
      (allProductsToCheck
        [["ikuyo_100g", "sayaka_40g"], ["sayaka_40g", "ummon_20g"]]).card :=
  ⟨by decide,
    (unique_probe_bound {"ikuyo_100g", "sayaka_40g", "ummon_20g"}
      [["ikuyo_100g", "sayaka_40g"], ["sayaka_40g", "ummon_20g"]]).2.1
      (by decide)⟩

/-- C8 counterexample: a classification outcome ("Unknown status (...)")
whose page-derived status text contains "Removed" passes the substring-based
persistent-error test and dispatches an error notice, so classification
outcomes are not entirely silent. -/
theorem error_silence_counterexample :
    isPersistentError (msgUnknownStatus "Removed") = true ∧
    (stepEntry false "d" "c" 200000
        (some (none, msgUnknownStatus "Removed")) {}).errNotif ≠
      ({} : Entry).errNotif := by decide

/-- C8 amended: an error or indeterminate probe outcome never dispatches a
stock-change notification and never touches the stored stock record; a
throttled error notice is dispatched only for messages passing the
persistent-error substring test ("not found" / "404" / "removed"); the fixed
transient, forbidden, server and structural-classification messages fail the
test and are entirely silent, while the 404 and error-title messages pass
it; classification messages embedding remote text may also pass it. -/
theorem error_handling_spec_amended :
    (∀ (dm : Bool) (du cid msg : String) (now : Int) (e : Entry),
      (stepEntry dm du cid now (some (none, msg)) e).stockV = e.stockV ∧
      (stepEntry dm du cid now (some (none, msg)) e).notif = e.notif ∧
      (stepEntry dm du cid now (some (none, msg)) e).delivered =
        e.delivered ∧
      (isPersistentError msg = false →
        stepEntry dm du cid now (some (none, msg)) e = e) ∧
      ((stepEntry dm du cid now (some (none, msg)) e).errNotif ≠ e.errNotif →
        isPersistentError msg = true)) ∧
    isPersistentError msg404 = true ∧
    isPersistentError msgTitleError = true ∧
    isPersistentError msg403 = false ∧
    isPersistentError msg500 = false ∧
    isPersistentError msgNoSpan = false ∧
    isPersistentError msgNoContainer = false ∧
    isPersistentError msgConnectionError = false ∧
    isPersistentError msgTimeout = false := by
  refine ⟨?_, by decide, by decide, by decide, by decide, by decide,
    by decide, by decide, by decide⟩
  intro dm du cid msg now e
  have hsilent : isPersistentError msg = false →
      stepEntry dm du cid now (some (none, msg)) e = e := by
    intro hpe
    simp [stepEntry, hpe]
  refine ⟨?_, ?_, ?_, hsilent, ?_⟩
  · simp only [stepEntry]
    split_ifs <;> rfl
  · simp only [stepEntry]
    split_ifs <;> rfl
  · simp only [stepEntry]
    split_ifs <;> rfl
  · intro hne
    cases hpe : isPersistentError msg with
    | true => rfl
    | false => exact absurd (congrArg Entry.errNotif (hsilent hpe)) hne

/-- Witness for `error_handling_spec_amended`: a timeout error leaves the
entry untouched. -/
theorem error_handling_spec_amended_witness :
    isPersistentError msgTimeout = false ∧
    stepEntry false "d" "c" 200000 (some (none, msgTimeout)) {} =
      ({} : Entry) :=
  ⟨by decide,
    (error_handling_spec_amended.1 false "d" "c" msgTimeout 200000
      {}).2.2.2.1 (by decide)⟩

/-- The dev-mode-independent part of a cycle entry: snapshot value, throttle
timestamp and dispatch-attempt counters (everything except what actually got
delivered). -/
def entryState (e : Entry) : Option StockVal × Option Int × Nat × Nat :=
  (e.stockV, e.errV, e.notif, e.errNotif)

/-- The per-product step's dev-mode-independent output depends only on the
dev-mode-independent input, for any dev-mode setting and recipient. -/
theorem stepEntry_state_congr (dm₁ dm₂ : Bool) (du₁ du₂ cid₁ cid₂ : String)
    (now : Int) (res : Option (Option Bool × String)) (e₁ e₂ : Entry)
    (h : entryState e₁ = entryState e₂) :
    entryState (stepEntry dm₁ du₁ cid₁ now res e₁) =
      entryState (stepEntry dm₂ du₂ cid₂ now res e₂) := by
  obtain ⟨h1, h2, h3, h4⟩ :
      e₁.stockV = e₂.stockV ∧ e₁.errV = e₂.errV ∧ e₁.notif = e₂.notif ∧
        e₁.errNotif = e₂.errNotif := by
    simpa [entryState, Prod.ext_iff] using h
  match res with
  | none => exact h
  | some (some b, msg) =>
      by_cases w : decideNotify e₂.stockV b msg = true <;>
        simp [stepEntry, entryState, h1, h2, h3, h4, w]
  | some (none, msg) =>
      by_cases hpe : isPersistentError msg = true
      · by_cases ht : now - (e₂.errV).getD 0 > 86400 <;>
          simp [stepEntry, entryState, h1, h2, h3, h4, hpe, ht]
      · simp only [Bool.not_eq_true] at hpe
        simp [stepEntry, entryState, h1, h2, h3, h4, hpe]

/-- Lifting `stepEntry_state_congr` over a user's monitored-product list. -/
theorem processUserProducts_state_congr (l : List String) :
    ∀ (dm₁ dm₂ : Bool) (du₁ du₂ cid₁ cid₂ : String) (now : Int)
      (checked : String → Option (Option Bool × String)) (s₁ s₂ : Snap),
      (∀ p, entryState (s₁ p) = entryState (s₂ p)) →
      ∀ p,
        entryState (processUserProducts dm₁ du₁ cid₁ now checked s₁ l p) =
          entryState (processUserProducts dm₂ du₂ cid₂ now checked s₂ l p) := by
  induction l with
  | nil => intro _ _ _ _ _ _ _ _ _ _ h p; exact h p
  | cons q rest ih =>
      intro dm₁ dm₂ du₁ du₂ cid₁ cid₂ now checked s₁ s₂ h p
      have hstep : ∀ p',
          entryState
              (processProduct dm₁ du₁ cid₁ now checked s₁ q p') =
            entryState
              (processProduct dm₂ du₂ cid₂ now checked s₂ q p') := by
        intro p'
        unfold processProduct fupdate
        by_cases hpq : p' = q
        · simp only [hpq, if_pos rfl]
          exact stepEntry_state_congr dm₁ dm₂ du₁ du₂ cid₁ cid₂ now
            (checked q) (s₁ q) (s₂ q) (h q)
        · simp only [if_neg hpq]
          exact h p'
      exact ih dm₁ dm₂ du₁ du₂ cid₁ cid₂ now checked _ _ hstep p

/-- Lifting the dev-mode independence over the whole per-user fan-out. -/
theorem processUsers_state_congr (users : List (String × List String)) :
    ∀ (dm₁ dm₂ : Bool) (du₁ du₂ : String) (now : Int)
      (checked : String → Option (Option Bool × String))
      (st₁ st₂ : String → Snap),
      (∀ u p, entryState (st₁ u p) = entryState (st₂ u p)) →
      ∀ u p,
        entryState (processUsers dm₁ du₁ now checked st₁ users u p) =
          entryState (processUsers dm₂ du₂ now checked st₂ users u p) := by
  induction users with
  | nil => intro _ _ _ _ _ _ _ _ h u p; exact h u p
  | cons w rest ih =>
      intro dm₁ dm₂ du₁ du₂ now checked st₁ st₂ h u p
      have hstep : ∀ u' p',
          entryState
            ((fupdate st₁ w.1
              (processUserProducts dm₁ du₁ w.1 now checked (st₁ w.1) w.2))
              u' p') =
          entryState
            ((fupdate st₂ w.1
              (processUserProducts dm₂ du₂ w.1 now checked (st₂ w.1) w.2))
              u' p') := by
        intro u' p'
        unfold fupdate
        by_cases huw : u' = w.1
        · simp only [huw, if_pos rfl]
          exact processUserProducts_state_congr w.2 dm₁ dm₂ du₁ du₂ w.1 w.1
            now checked (st₁ w.1) (st₂ w.1) (h w.1) p'
        · simp only [if_neg huw]
          exact h u' p'
      exact ih dm₁ dm₂ du₁ du₂ now checked _ _ hstep u p

/-- Invariant of the production `notify_maintenance_start` loop: every user
the loop has passed over ends in the `maintenance` state, and a state that
is already `maintenance` stays so. -/
theorem maintenanceStartStep_fold_invariant (users : List String) :
    ∀ (acc : (String → Option String) × List String) (u : String),
      (u ∈ users ∨ acc.1 u = some "maintenance") →
      (users.foldl maintenanceStartStep acc).1 u = some "maintenance" := by
  induction users with
  | nil =>
      intro acc u h
      rcases h with h | h
      · exact absurd h (List.not_mem_nil u)
      · exact h
  | cons c cs ih =>
      intro acc u h
      apply ih
      rcases h with h | h
      · rcases List.mem_cons.mp h with rfl | hmem
        · right
          cases hac : acc.1 u with
          | none => simp [maintenanceStartStep, shouldSendNotification, hac,
              fupdate]
          | some v =>
              by_cases hv : v = "maintenance"
              · subst hv
                simp [maintenanceStartStep, shouldSendNotification, hac]
              · simp [maintenanceStartStep, shouldSendNotification, hac, hv,
                  fupdate]
        · exact Or.inl hmem
      · right
        by_cases huc : u = c
        · subst huc
          simp [maintenanceStartStep, shouldSendNotification, h, fupdate]
        · simp only [maintenanceStartStep, shouldSendNotification]
          split_ifs <;> simp_all [fupdate]

/-- C6 counterexample: with dev mode enabled, a `maintenance_start` event
leaves a non-dev user's lifecycle state untouched, while with dev mode
disabled that user transitions to `maintenance` — so the per-user lifecycle
state transitions are not identical across the dev-mode setting. -/
theorem dev_mode_counterexample :
    (notifyMaintenanceStart true "dev" ["alice"] (fun _ => none)).1 "alice" ≠
      (notifyMaintenanceStart false "dev" ["alice"] (fun _ => none)).1
        "alice" := by decide

/-- C6 amended: dev mode is a pure dispatch filter for the monitoring cycle
— per-user stock snapshots, throttle timestamps and dispatch attempts are
identical whether dev mode is on or off — but lifecycle events in dev mode
run the state machine only for the dev user: a `maintenance_start` with dev
mode on leaves every other user's lifecycle state unchanged, whereas with
dev mode off every user transitions to `maintenance`. -/
theorem dev_mode_spec_amended :
    (∀ (du : String) (now : Int)
        (checked : String → Option (Option Bool × String))
        (store : String → Snap) (users : List (String × List String))
        (u p : String),
      entryState (processUsers true du now checked store users u p) =
        entryState (processUsers false du now checked store users u p)) ∧
    (∀ (du : String) (users : List String)
        (states : String → Option String) (u : String),
      u ≠ du →
        (notifyMaintenanceStart true du users states).1 u = states u) ∧
    (∀ (du : String) (users : List String)
        (states : String → Option String) (u : String),
      u ∈ users →
        (notifyMaintenanceStart false du users states).1 u =
          some "maintenance") := by
  refine ⟨?_, ?_, ?_⟩
  · intro du now checked store users u p
    exact processUsers_state_congr users true false du du now checked store
      store (fun _ _ => rfl) u p
  · intro du users states u hne
    simp only [notifyMaintenanceStart, shouldSendNotification, if_true]
    split_ifs <;> simp_all [fupdate]
  · intro du users states u hu
    simp only [notifyMaintenanceStart, Bool.false_eq_true, if_false]
    exact maintenanceStartStep_fold_invariant users (states, []) u
      (Or.inl hu)

/-- Witness for `dev_mode_spec_amended`: with dev mode on, `alice`'s
lifecycle state is untouched by a `maintenance_start`. -/
theorem dev_mode_spec_amended_witness :
    ("alice" ≠ "dev") ∧
    (notifyMaintenanceStart true "dev" ["alice"] (fun _ => none)).1 "alice" =
      (fun _ => none : String → Option String) "alice" :=
  ⟨by decide,
    dev_mode_spec_amended.2.1 "dev" ["alice"] (fun _ => none) "alice"
      (by decide)⟩

/-- Folding keyed pointwise updates over a list is invariant under
permutation when distinct elements touch distinct keys: each step reads and
writes only its own key. -/
theorem foldl_keyed_perm {ι α β : Type} [DecidableEq α] (k : ι → α)
    (F : ι → β → β) {l₁ l₂ : List ι} (hp : l₁.Perm l₂)
    (hk : ∀ u ∈ l₁, ∀ v ∈ l₁, u ≠ v → k u ≠ k v) (st : α → β) :
    l₁.foldl (fun s i => fupdate s (k i) (F i (s (k i)))) st =
      l₂.foldl (fun s i => fupdate s (k i) (F i (s (k i)))) st := by
  refine hp.foldl_eq' ?_ st
  intro x hx y hy s
  by_cases hxy : x = y
  · subst hxy; rfl
  · have hkxy : k x ≠ k y := hk x hx y hy hxy
    have hne : ¬(k y = k x) := fun h => hkxy h.symm
    funext a
    simp only [fupdate, if_neg hne, if_neg hkxy]
    by_cases h1 : a = k x <;> by_cases h2 : a = k y
    · exact absurd (h1.symm.trans h2) hkxy
    · simp [h1, h2, hkxy, hne]
    · simp [h1, h2, hkxy, hne]
    · simp [h1, h2, hkxy, hne]

/-- C9: within a cycle, processing a user's monitored products in any order
yields the same final snapshot state (including the recorded dispatches),
and processing users with distinct chat ids in any order yields the same
final per-user store. -/
theorem permutation_invariance :
    (∀ (dm : Bool) (du cid : String) (now : Int)
        (checked : String → Option (Option Bool × String)) (s : Snap)
        (l₁ l₂ : List String), l₁.Perm l₂ →
      processUserProducts dm du cid now checked s l₁ =
        processUserProducts dm du cid now checked s l₂) ∧
    (∀ (dm : Bool) (du : String) (now : Int)
        (checked : String → Option (Option Bool × String))
        (store : String → Snap)
        (users₁ users₂ : List (String × List String)),
      users₁.Perm users₂ →
      (∀ u ∈ users₁, ∀ v ∈ users₁, u ≠ v → u.1 ≠ v.1) →
      processUsers dm du now checked store users₁ =
        processUsers dm du now checked store users₂) := by
  constructor
  · intro dm du cid now checked s l₁ l₂ hp
    exact foldl_keyed_perm (fun p => p)
      (fun pid e => stepEntry dm du cid now (checked pid) e) hp
      (fun u _ v _ huv => huv) s
  · intro dm du now checked store users₁ users₂ hp hk
    exact foldl_keyed_perm Prod.fst
      (fun u snap => processUserProducts dm du u.1 now checked snap u.2) hp
      hk store

/-- Witness for `permutation_invariance`: two users processed in either
order produce the same store. -/
theorem permutation_invariance_witness :
    ([("u1", ["a"]), ("u2", ["b"])].Perm
      [("u2", ["b"]), ("u1", ["a"])]) ∧
    processUsers false "d" 0 (fun _ => none) (fun _ _ => {})
        [("u1", ["a"]), ("u2", ["b"])] =
      processUsers false "d" 0 (fun _ => none) (fun _ _ => {})
        [("u2", ["b"]), ("u1", ["a"])] :=
  ⟨List.Perm.swap ("u2", ["b"]) ("u1", ["a"]) [],
    permutation_invariance.2 false "d" 0 (fun _ => none) (fun _ _ => {})
      [("u1", ["a"]), ("u2", ["b"])] [("u2", ["b"]), ("u1", ["a"])]
      (List.Perm.swap ("u2", ["b"]) ("u1", ["a"]) []) (by decide)⟩

end NeedMoMatcha
